import Mathlib

/-!
Shallow embedding of the Heirloom CLI core (src/heirloom/cli/__init__.py and
src/heirloom/console.py): the record store, the install/uninstall commit logic,
the list filter, the command control flow, and the Console output wrapper.
Helper modules that are not part of the shipped sources (database_functions,
the Heirloom backend) are modelled from the specification where a claim needs
them; each such definition is marked in its doc comment.
-/

/-- A persisted install record, mirroring the dictionaries stored in the games
database: keys name, uuid, install_dir, executable.  The sentinel string
"Not Installed" marks an absent installation. -/
structure GameRecord where
  name : String
  uuid : String
  install_dir : String
  executable : String
deriving DecidableEq, Repr

/-- A catalog entry as held in heirloom.games: keys game_name, installer_uuid,
game_description. -/
structure CatalogGame where
  game_name : String
  installer_uuid : String
  game_description : String
deriving DecidableEq, Repr

/-- Modelled from the spec: the Record Store is a table of records keyed by
titleId (uuid) with a secondary name lookup returning the first match in
insertion order (section 4.1). -/
def read_game_record_uuid (db : List GameRecord) (uuid : String) : Option GameRecord :=
  db.find? (fun r => r.uuid = uuid)

/-- Modelled from the spec: secondary lookup by name, first match in insertion
order (section 4.1). -/
def read_game_record_name (db : List GameRecord) (name : String) : Option GameRecord :=
  db.find? (fun r => r.name = name)

/-- Modelled from the spec: upsert — insert if absent, else overwrite all
fields except titleId; idempotent (section 4.1). -/
def write_game_record (db : List GameRecord) (r : GameRecord) : List GameRecord :=
  if db.any (fun x => x.uuid = r.uuid) then
    db.map (fun x => if x.uuid = r.uuid then { r with uuid := x.uuid } else x)
  else
    db ++ [r]

/-- Modelled from the spec: delete is keyed by titleId and is an idempotent
no-op when no record matches (section 4.1).  The CLI passes its (optional)
uuid argument straight through; a missing key matches no record, since every
stored record carries the uuid the catalog assigned it. -/
def delete_game_record (db : List GameRecord) (uuid : Option String) : List GameRecord :=
  match uuid with
  | some u => db.filter (fun r => r.uuid ≠ u)
  | none => db

/-- Python exception kinds raised by the embedded code, together with the
error identifiers the spec taxonomy names (section 7) so that claims about
them can be stated. -/
inductive PyError where
  | nameError
  | typeError
  | noExecutableFound
  | invalidSelection
deriving DecidableEq, Repr

/-- Observable console output events. -/
inductive OutEvent where
  | print (msg : String)
  | richStatus (msg : String)
deriving DecidableEq, Repr

/-- The Python value returned by an expression used as a context manager:
either an actual context manager or None (what Console.status returns). -/
inductive PyValue where
  | none
  | ctx
deriving DecidableEq, Repr

/-- src/heirloom/console.py: class Console, holding the quiet flag. -/
structure Console where
  quiet : Bool
deriving DecidableEq, Repr

/-- Console.print: prints unless quiet (console.py lines 15-20).  Returns the
list of output events produced. -/
def Console.print (c : Console) (msg : String) : List OutEvent :=
  if !c.quiet then [OutEvent.print msg] else []

/-- Console.status (console.py lines 22-30): when not quiet it enters and
immediately exits a rich status spinner and falls through; when quiet it does
nothing.  Both branches return None — there is no return statement. -/
def Console.status (c : Console) (message : String) : List OutEvent × PyValue :=
  if !c.quiet then ([OutEvent.richStatus message], PyValue.none)
  else ([], PyValue.none)

/-- Console.log (console.py lines 32-37). -/
def Console.log (c : Console) (text : String) (style : String) : List OutEvent :=
  if !c.quiet then [OutEvent.print text] else []

/-- Console.warn (console.py lines 39-44). -/
def Console.warn (c : Console) (text : String) : List OutEvent :=
  if !c.quiet then [OutEvent.print ("Warning: " ++ text)] else []

/-- Console.error (console.py lines 46-51). -/
def Console.error (c : Console) (text : String) : List OutEvent :=
  if !c.quiet then [OutEvent.print ("Error: " ++ text)] else []

/-- Console.success (console.py lines 53-58). -/
def Console.success (c : Console) (text : String) : List OutEvent :=
  if !c.quiet then [OutEvent.print ("Success: " ++ text)] else []

/-- Entering a with-statement: a context manager is entered; any other value
(in particular None) raises TypeError. -/
def withEnter (v : PyValue) : Option PyError :=
  match v with
  | PyValue.ctx => Option.none
  | PyValue.none => some PyError.typeError

/-- One with-block of the CLI: evaluate console.status(msg), enter the
returned value, and on success perform the listed backend work.  Result:
output events, backend calls actually executed, uncaught exception if any. -/
def withBlock (c : Console) (msg : String) (work : List String) :
    List OutEvent × List String × Option PyError :=
  let s := c.status msg
  match withEnter s.2 with
  | some e => (s.1, [], some e)
  | Option.none => (s.1, work, Option.none)

/-- The login command (cli/__init__.py lines 83-96): re-initializes the
console with its quiet flag, then wraps heirloom.login() in
`with self.console.status(...)`; the except clause prints two messages and
re-raises.  Result: output events, backend calls executed, uncaught
exception. -/
def login_dyn (quiet : Bool) : List OutEvent × List String × Option PyError :=
  let c : Console := ⟨quiet⟩
  match withBlock c "Logging in to Legacy Games..." ["heirloom.login"] with
  | (o, calls, some e) =>
      (o ++ c.print "Unable to log in to Legacy Games!" ++ c.print "TypeError", calls, some e)
  | (o, calls, Option.none) => (o, calls, Option.none)

/-- The refresh command (cli/__init__.py lines 99-117): calls login (outside
its try block, so an exception there propagates), then three with-blocks and
the installation-status reconciliation inside a try whose except prints and
re-raises. -/
def refresh_dyn (quiet : Bool) : List OutEvent × List String × Option PyError :=
  let c : Console := ⟨quiet⟩
  match login_dyn quiet with
  | (o, calls, some e) => (o, calls, some e)
  | (o, calls, Option.none) =>
    match withBlock c "Refreshing games list..." ["heirloom.refresh_games_list"] with
    | (o1, c1, some e) =>
        (o ++ o1 ++ c.print "Unable to refresh games list!" ++ c.print "TypeError",
         calls ++ c1, some e)
    | (o1, c1, Option.none) =>
      match withBlock c "Initializing database..." ["init_games_db"] with
      | (o2, c2, some e) =>
          (o ++ o1 ++ o2 ++ c.print "Unable to refresh games list!" ++ c.print "TypeError",
           calls ++ c1 ++ c2, some e)
      | (o2, c2, Option.none) =>
        match withBlock c "Merging database into game data..." ["merge_game_data_with_db"] with
        | (o3, c3, some e) =>
            (o ++ o1 ++ o2 ++ o3 ++ c.print "Unable to refresh games list!" ++ c.print "TypeError",
             calls ++ c1 ++ c2 ++ c3, some e)
        | (o3, c3, Option.none) =>
            (o ++ o1 ++ o2 ++ o3,
             calls ++ c1 ++ c2 ++ c3 ++ ["refresh_game_installation_status"], Option.none)

/-- Characters of the last slash-separated component: everything after the
last slash (the whole input when no slash occurs). -/
def lastComponentChars : List Char → List Char → List Char
  | [], acc => acc.reverse
  | c :: rest, acc =>
    if c = '/' then lastComponentChars rest []
    else lastComponentChars rest (c :: acc)

/-- Last path component: Python s.split('/')[-1]. -/
def lastComponent (s : String) : String :=
  String.mk (lastComponentChars s.data [])

/-- The dictionary returned by heirloom.install_game, as the CLI reads it:
result.get('status'), result['install_path'], result.get('executable_files').
A missing or None executable_files key behaves like the empty list (both are
falsy in the conditions the CLI tests). -/
structure InstallResult where
  status : String
  install_path : String
  executable_files : List String
deriving DecidableEq, Repr

/-- Outcome of the commit section of install_game: the resulting store,
whether write_game_record executed, the uncaught exception if any, and the
candidate lists handed to the interactive disambiguation strategy. -/
structure CommitResult where
  db : List GameRecord
  wrote : Bool
  error : Option PyError
  selections : List (List String)
deriving DecidableEq, Repr

/-- The commit section of install_game (cli/__init__.py lines 204-219),
starting at `if result.get('status') == 'success':`.  `strategy` models
inquirer.select over the candidate executables.  On success with exactly one
candidate the basename of that candidate is joined to the install path with a
literal backslash; with several candidates the strategy's selection is used
the same way; with zero candidates execution reaches write_game_record with
the local name answer never assigned, raising NameError before any write; on
a non-success status only messages are printed and nothing is written. -/
def install_commit (db : List GameRecord) (game : String) (uuid : String)
    (result : InstallResult) (strategy : List String → String) : CommitResult :=
  if result.status = "success" then
    if result.executable_files.length = 1 then
      let executable_file := lastComponent (result.executable_files.headD "")
      let answer := result.install_path ++ "\\" ++ executable_file
      ⟨write_game_record db ⟨game, uuid, result.install_path, answer⟩,
       true, Option.none, []⟩
    else if result.executable_files.length > 1 then
      let sel := strategy result.executable_files
      let executable_file := lastComponent sel
      let answer := result.install_path ++ "\\" ++ executable_file
      ⟨write_game_record db ⟨game, uuid, result.install_path, answer⟩,
       true, Option.none, [result.executable_files]⟩
    else
      ⟨db, false, some PyError.nameError, []⟩
  else
    ⟨db, false, Option.none, []⟩

/-- Outcome of the uninstall backend. -/
inductive UninstallOutcome where
  | success
  | notInstalled
deriving DecidableEq, Repr

/-- Whether the store holds a terminal INSTALLED record for the title. -/
def isInstalledRecord (db : List GameRecord) (game : String) : Bool :=
  match read_game_record_name db game with
  | some r => r.install_dir ≠ "Not Installed"
  | Option.none => false

/-- Modelled from the spec: Heirloom.uninstall_game is not among the shipped
sources.  Per section 4.4, uninstall requires a terminal INSTALLED record and
fails with NotInstalled otherwise; on success it removes the installed files
(filesystem work only — record deletion is the caller's commit step). -/
def heirloom_uninstall_game (db : List GameRecord) (game : String) : UninstallOutcome :=
  if isInstalledRecord db game then UninstallOutcome.success
  else UninstallOutcome.notInstalled

/-- Modelled from the spec: catalog lookup of a game name by installer uuid
(Catalog Mirror findByTitleId, section 4.2); the catalog is the list of
(installer_uuid, game_name) pairs of the current session. -/
def get_game_from_uuid (catalog : List (String × String)) (u : String) : String :=
  ((catalog.find? (fun p => p.1 = u)).map (fun p => p.2)).getD ""

/-- The title the uninstall command operates on (cli/__init__.py lines
252-255): if a uuid was passed, the name is looked up from it; otherwise the
passed name is used; with neither, an interactive pick supplies it. -/
def uninstall_title (catalog : List (String × String))
    (game : Option String) (uuid : Option String) (pick : String) : String :=
  match uuid with
  | some u => get_game_from_uuid catalog u
  | Option.none =>
    match game with
    | some g => g
    | Option.none => pick

/-- The uninstall command after its refresh and reconciliation prelude
(cli/__init__.py lines 249-259): resolve the title, call the backend, and on
success call delete_game_record with the original uuid argument — which the
command never derives from the game name, so it is None whenever the command
was invoked by name.  Returns the resulting store and the backend outcome. -/
def uninstall_post_refresh (db : List GameRecord) (catalog : List (String × String))
    (game : Option String) (uuid : Option String) (pick : String) :
    List GameRecord × UninstallOutcome :=
  let g := uninstall_title catalog game uuid pick
  match heirloom_uninstall_game db g with
  | UninstallOutcome.success => (delete_game_record db uuid, UninstallOutcome.success)
  | UninstallOutcome.notInstalled => (db, UninstallOutcome.notInstalled)

/-- The filtering section of list_games (cli/__init__.py lines 120-148):
requesting both filters resets both to False; then a game with an installed
record is skipped under the not-installed filter, a game with a
Not Installed record is skipped under the installed filter, and a game with
no record at all is always listed. -/
def list_games_filter (db : List GameRecord) (installed : Bool)
    (not_installed : Bool) (games : List CatalogGame) : List CatalogGame :=
  let flags := if installed && not_installed then (false, false)
               else (installed, not_installed)
  games.filter fun g =>
    match read_game_record_name db g.game_name with
    | some r => if r.install_dir ≠ "Not Installed" then !flags.2 else !flags.1
    | Option.none => true

/-- Abstract control-flow steps of the CLI commands, one per source
statement that the claims about command ordering distinguish. -/
inductive Step where
  | login
  | refreshGamesList
  | initGamesDb
  | mergeDb
  | reconcile
  | readRecords
  | reportList
  | resolveTitle
  | downloadPayload
  | reportDownload
  | ensureBaseDir
  | runInstaller
  | resolveExecutable
  | writeRecord
  | reportInfo
  | runUninstaller
  | deleteRecord
  | launchProcess
deriving DecidableEq, BEq, Repr

/-- Statement order of the refresh command (cli/__init__.py lines 99-117):
login, heirloom.refresh_games_list, init_games_db, merge_game_data_with_db,
refresh_game_installation_status. -/
def refresh_steps : List Step :=
  [Step.login, Step.refreshGamesList, Step.initGamesDb, Step.mergeDb, Step.reconcile]

/-- Statement order of list_games (lines 120-148): refresh, a second
reconciliation pass, the per-game record reads, the table or JSON report. -/
def list_games_steps : List Step :=
  refresh_steps ++ [Step.reconcile, Step.readRecords, Step.reportList]

/-- Statement order of download_game (lines 151-165). -/
def download_game_steps : List Step :=
  refresh_steps ++ [Step.resolveTitle, Step.downloadPayload, Step.reportDownload]

/-- Statement order of install_game (lines 168-219): refresh, reconciliation,
merge, base-directory setup, title resolution, the installer backend, the
executable branching and the record write. -/
def install_game_steps : List Step :=
  refresh_steps ++ [Step.reconcile, Step.mergeDb, Step.ensureBaseDir, Step.resolveTitle,
    Step.runInstaller, Step.resolveExecutable, Step.writeRecord]

/-- Statement order of info (lines 222-236). -/
def info_steps : List Step :=
  refresh_steps ++ [Step.mergeDb, Step.resolveTitle, Step.reportInfo]

/-- Statement order of uninstall (lines 239-259). -/
def uninstall_steps : List Step :=
  refresh_steps ++ [Step.reconcile, Step.resolveTitle, Step.runUninstaller, Step.deleteRecord]

/-- Statement order of launch (lines 262-277). -/
def launch_steps : List Step :=
  refresh_steps ++ [Step.resolveTitle, Step.readRecords, Step.launchProcess]

/-- Steps that report on or change a title's install state: the list and info
reports, the record write and delete, and launching (which consumes the
recorded executable). -/
def reportsOrMutates : Step → Bool
  | Step.reportList => true
  | Step.reportInfo => true
  | Step.writeRecord => true
  | Step.deleteRecord => true
  | Step.launchProcess => true
  | _ => false

/-- The reconciliation step precedes every report-or-mutate step: walking the
list, a report-or-mutate step before the first reconcile fails the check, and
the first reconcile validates everything after it. -/
def reconcileFirst : List Step → Bool
  | [] => true
  | s :: rest =>
    if reportsOrMutates s then false
    else if s == Step.reconcile then true
    else reconcileFirst rest

/-- Module-level names bound by the star imports in cli/__init__.py.
Modelled from the spec: password_functions, path_functions,
database_functions and config are helper modules outside the shipped core;
the names listed are the helpers the source file calls, and neither they nor
the spec define any name quiet. -/
def starImportedNames : List String :=
  ["get_encryption_key", "set_encryption_key", "get_config",
   "read_game_record", "write_game_record", "delete_game_record",
   "init_games_db", "refresh_game_installation_status"]

/-- Every name visible inside install_game (cli/__init__.py lines 178-219):
its parameters, the locals it assigns, and the module-level bindings of
cli/__init__.py (imports, the two classes, main, and the star-imported
helpers). -/
def installGameScope : List String :=
  ["self", "game", "uuid", "install_method",
   "result", "executable_file", "answer",
   "os", "json", "shutil", "subprocess", "Enum", "rich", "typer",
   "inquirer", "Annotated", "Heirloom", "Console",
   "InstallationMethod", "HeirloomManager", "main"] ++ starImportedNames

/-- Python name resolution inside install_game. -/
def resolvesName (n : String) : Bool :=
  installGameScope.contains n

/-- The install_game command entry (cli/__init__.py line 188): its first
statement is `self.refresh(quiet)`.  Evaluating the argument looks up the
name quiet; if the lookup fails, NameError is raised before anything else
runs — the store is untouched and no backend is called.  If the name did
resolve, the call would proceed into refresh.  Result: the store, the
backend calls executed, and the uncaught exception. -/
def install_game_dyn (db : List GameRecord) :
    List GameRecord × List String × Option PyError :=
  if resolvesName "quiet" then
    match refresh_dyn false with
    | (_, calls, some e) => (db, calls, some e)
    | (_, calls, Option.none) => (db, calls, Option.none)
  else
    (db, [], some PyError.nameError)

/-- C1: if the install backend reports anything other than success, the
commit section of install_game writes no record and modifies none — the
store is returned exactly as it was, nothing was written, no exception is
raised there, and no disambiguation took place. -/
theorem install_failure_commits_nothing (db : List GameRecord) (game uuid : String)
    (result : InstallResult) (strategy : List String → String)
    (h : result.status ≠ "success") :
    install_commit db game uuid result strategy = ⟨db, false, Option.none, []⟩ := by
  simp [install_commit, h]

/-- Witness for C1 at a concrete failed outcome. -/
theorem install_failure_commits_nothing_witness :
    install_commit [] "Game" "u1" ⟨"failed", "", []⟩ (fun _ => "")
      = ⟨[], false, Option.none, []⟩ :=
  install_failure_commits_nothing [] "Game" "u1" ⟨"failed", "", []⟩ (fun _ => "")
    (by decide)

/-- The store produced by a successful install of the title Torchlight with
uuid u1 and a single candidate executable. -/
def c2_installed_db : List GameRecord :=
  (install_commit [] "Torchlight" "u1"
    ⟨"success", "/base/T", ["inner/Game.exe"]⟩ (fun _ => "")).db

/-- C2: after a successful install of Torchlight, invoking uninstall by game
name (uuid argument absent, as the command never derives it from the name)
with a succeeding backend reports success yet leaves the store unchanged:
the installed record survives, so the store is not returned to its
pre-install state. -/
theorem uninstall_by_name_leaves_record :
    uninstall_post_refresh c2_installed_db [("u1", "Torchlight")]
        (some "Torchlight") Option.none "Torchlight"
      = (c2_installed_db, UninstallOutcome.success)
    ∧ isInstalledRecord c2_installed_db "Torchlight" = true
    ∧ c2_installed_db ≠ [] := by decide

/-- C3: a successful install outcome with zero candidate executables reaches
the record write with the local name answer never assigned: the commit
section raises NameError — not the NoExecutableFound failure the resolver
contract prescribes — and commits no record. -/
theorem install_zero_candidates_name_error :
    install_commit [] "Game" "u1" ⟨"success", "/base/Game", []⟩ (fun _ => "")
      = ⟨[], false, some PyError.nameError, []⟩
    ∧ PyError.nameError ≠ PyError.noExecutableFound := by decide

/-- Counterexample to C4 as stated: with candidates A/Game.exe and
B/Game2.exe and a strategy returning C/Other.exe — a selection not among the
candidates — the commit section raises nothing (in particular not
InvalidSelection) and still writes a record. -/
theorem invalid_selection_not_rejected :
    (install_commit [] "Game" "u1"
        ⟨"success", "/base", ["A/Game.exe", "B/Game2.exe"]⟩
        (fun _ => "C/Other.exe")).error = Option.none
    ∧ (install_commit [] "Game" "u1"
        ⟨"success", "/base", ["A/Game.exe", "B/Game2.exe"]⟩
        (fun _ => "C/Other.exe")).wrote = true
    ∧ "C/Other.exe" ∉ (["A/Game.exe", "B/Game2.exe"] : List String) := by decide

/-- C4 (amended): with exactly one candidate the commit section uses that
candidate directly — the record is written from its basename and the
disambiguation strategy is never consulted (the outcome is independent of
it); with more than one candidate the strategy is invoked with exactly the
full candidate list, but its selection is committed without validation. -/
theorem executable_resolution_behaviour (db : List GameRecord) (game uuid : String)
    (result : InstallResult) (strategy strategy2 : List String → String)
    (h : result.status = "success") :
    (result.executable_files.length = 1 →
      install_commit db game uuid result strategy
        = ⟨write_game_record db ⟨game, uuid, result.install_path,
             result.install_path ++ "\\"
               ++ lastComponent (result.executable_files.headD "")⟩,
           true, Option.none, []⟩
      ∧ install_commit db game uuid result strategy
          = install_commit db game uuid result strategy2)
    ∧ (result.executable_files.length > 1 →
      install_commit db game uuid result strategy
        = ⟨write_game_record db ⟨game, uuid, result.install_path,
             result.install_path ++ "\\"
               ++ lastComponent (strategy result.executable_files)⟩,
           true, Option.none, [result.executable_files]⟩) := by
  constructor
  · intro h1
    constructor <;> simp [install_commit, h, h1]
  · intro h1
    have h2 : result.executable_files.length ≠ 1 := by omega
    simp [install_commit, h, h1, h2]

/-- Witness for C4 (amended) at a concrete single-candidate outcome. -/
theorem executable_resolution_behaviour_witness :
    install_commit [] "G" "u" ⟨"success", "/p", ["A/x.exe"]⟩ (fun _ => "A/x.exe")
      = ⟨write_game_record [] ⟨"G", "u", "/p",
           "/p" ++ "\\" ++ lastComponent ((["A/x.exe"] : List String).headD "")⟩,
         true, Option.none, []⟩ :=
  ((executable_resolution_behaviour [] "G" "u" ⟨"success", "/p", ["A/x.exe"]⟩
      (fun _ => "A/x.exe") (fun _ => "A/x.exe") rfl).1 (by decide)).1

/-- C5: when the store holds no terminal INSTALLED record for the resolved
title, the uninstall command ends with the NotInstalled outcome and the
store is unchanged — no record is deleted. -/
theorem uninstall_not_installed (db : List GameRecord)
    (catalog : List (String × String)) (game uuid : Option String) (pick : String)
    (h : isInstalledRecord db (uninstall_title catalog game uuid pick) = false) :
    uninstall_post_refresh db catalog game uuid pick
      = (db, UninstallOutcome.notInstalled) := by
  simp [uninstall_post_refresh, heirloom_uninstall_game, h]

/-- Witness for C5 at a concrete Not Installed record. -/
theorem uninstall_not_installed_witness :
    uninstall_post_refresh [⟨"G", "u1", "Not Installed", "Not Installed"⟩] []
        (some "G") Option.none "G"
      = ([⟨"G", "u1", "Not Installed", "Not Installed"⟩],
         UninstallOutcome.notInstalled) :=
  uninstall_not_installed [⟨"G", "u1", "Not Installed", "Not Installed"⟩] []
    (some "G") Option.none "G" (by decide)

/-- C6: requesting the installed and not-installed filters together makes
list_games behave exactly as if neither were requested, for every store and
games list. -/
theorem list_both_filters_like_none (db : List GameRecord) (games : List CatalogGame) :
    list_games_filter db true true games = list_games_filter db false false games := rfl

/-- C7: each of the six lifecycle commands begins with the refresh sequence
(whose last step is the installation-status reconciliation), and in each
command the first reconciliation step precedes every step that reports on or
changes a title's install state. -/
theorem lifecycle_commands_reconcile_first :
    (list_games_steps.take 5 = refresh_steps ∧ reconcileFirst list_games_steps = true)
    ∧ (download_game_steps.take 5 = refresh_steps
        ∧ reconcileFirst download_game_steps = true)
    ∧ (install_game_steps.take 5 = refresh_steps
        ∧ reconcileFirst install_game_steps = true)
    ∧ (info_steps.take 5 = refresh_steps ∧ reconcileFirst info_steps = true)
    ∧ (uninstall_steps.take 5 = refresh_steps ∧ reconcileFirst uninstall_steps = true)
    ∧ (launch_steps.take 5 = refresh_steps ∧ reconcileFirst launch_steps = true) := by
  decide

/-- C8: no parameter, local or module-level binding of install_game is named
quiet, so evaluating the argument of its first statement self.refresh(quiet)
raises NameError: the command ends with NameError, the store is untouched
and no backend call is made, for every starting store. -/
theorem install_game_raises_name_error :
    resolvesName "quiet" = false
    ∧ ∀ db : List GameRecord, install_game_dyn db = (db, [], some PyError.nameError) := by
  have h : resolvesName "quiet" = false := by decide
  exact ⟨h, fun db => by simp [install_game_dyn, h]⟩

/-- C9: Console.status returns None for every message and quiet setting, so
login — whose body enters `with self.console.status(...)` — raises
TypeError without ever calling heirloom.login, and refresh, which calls
login first, likewise ends with TypeError having executed none of its
wrapped work. -/
theorem console_status_none_breaks_with :
    (∀ (quiet : Bool) (msg : String), (Console.status ⟨quiet⟩ msg).2 = PyValue.none)
    ∧ (∀ quiet : Bool, (login_dyn quiet).2 = ([], some PyError.typeError))
    ∧ (∀ quiet : Bool, (refresh_dyn quiet).2 = ([], some PyError.typeError)) := by
  refine ⟨fun quiet msg => ?_, fun quiet => ?_, fun quiet => ?_⟩ <;>
    cases quiet <;> rfl

/-- C10: a Console constructed with quiet set produces no output from any of
print, status, log, warn, error or success, whatever the inputs. -/
theorem quiet_console_silent :
    ∀ (msg style text : String),
      Console.print ⟨true⟩ msg = []
      ∧ (Console.status ⟨true⟩ msg).1 = []
      ∧ Console.log ⟨true⟩ msg style = []
      ∧ Console.warn ⟨true⟩ text = []
      ∧ Console.error ⟨true⟩ text = []
      ∧ Console.success ⟨true⟩ text = [] := by
  intro msg style text
  exact ⟨rfl, rfl, rfl, rfl, rfl, rfl⟩
